import Mathlib

/-!
Shallow embedding of the notes backend (src/backend/server.py) together with
the structured-extraction layer described by the design document.

Conventions of the embedding:
* the outbound LLM call is a parameter `llm : String → Except String String`
  mapping the user prompt to either the raw response text or a provider
  error (network, timeout, quota, ...);
* Python dict/record values that matter to the claims are modelled with
  explicit inductive types; datetimes are a plain record of numeric fields;
* fallible Python code (code that can raise) returns `Except`/`Option`;
  code that catches all exceptions and substitutes a fallback is total.
-/

/-! ### Python string primitives used by the code -/

/-- ASCII whitespace stripped by Python str.strip (as used on the data here). -/
def isPySpace (c : Char) : Bool :=
  c == ' ' || c == '\t' || c == '\n' || c == '\r'

/-- str.strip on a character list: drop whitespace from both ends. -/
def pyStripList (cs : List Char) : List Char :=
  ((cs.dropWhile isPySpace).reverse.dropWhile isPySpace).reverse

/-- Python str.strip(). -/
def pyStrip (s : String) : String :=
  String.mk (pyStripList s.toList)

/-- Python str.lower() (ASCII case folding, all that the data here needs). -/
def pyLowerStr (s : String) : String :=
  String.mk (s.toList.map Char.toLower)

/-- Index of the first occurrence of `needle` in `hay`, if any
(Python str.find / the anchor of a regex search). -/
def idxOfSub (hay needle : List Char) : Option Nat :=
  if needle.isPrefixOf hay then some 0
  else
    match hay with
    | [] => none
    | _ :: t => (idxOfSub t needle).map (· + 1)

/-- Whether `label` occurs as a substring of `s`. -/
def containsSub (s label : String) : Bool :=
  (idxOfSub s.toList label.toList).isSome

/-! ### The LLM collaborator and the three AI helpers of server.py -/

/-- The user prompt built by generate_ai_summary. -/
def summaryPrompt (content : String) : String :=
  "Please provide a concise summary of the following note content:\n\n" ++ content

/-- The user prompt built by generate_tag_suggestions. -/
def tagsPrompt (content : String) : String :=
  "Suggest 3-5 relevant tags for this note content. Return only a JSON array of strings:\n\n" ++ content

/-- The user prompt built by generate_insights. -/
def insightsPrompt (content : String) : String :=
  "Analyze this note and provide insights, patterns, and productivity suggestions:\n\n" ++ content

/-- server.py generate_ai_summary: sends the prompt; any exception from the
provider call is caught, logged, and replaced by the placeholder string
"Summary generation failed". -/
def generate_ai_summary (llm : String → Except String String) (content : String) : String :=
  match llm (summaryPrompt content) with
  | Except.ok response => response
  | Except.error _ => "Summary generation failed"

/-- server.py generate_insights: as generate_ai_summary but with the insights
prompt and the placeholder "Insight generation failed". -/
def generate_insights (llm : String → Except String String) (content : String) : String :=
  match llm (insightsPrompt content) with
  | Except.ok response => response
  | Except.error _ => "Insight generation failed"

/-! ### generate_tag_suggestions: bracket-span regex + json.loads + comprehension -/

/-- Index of the last occurrence of `c` in `cs`, if any. -/
def lastIdxOf (c : Char) (cs : List Char) : Option Nat :=
  match cs with
  | [] => none
  | x :: t =>
    match lastIdxOf c t with
    | some j => some (j + 1)
    | none => if x == c then some 0 else none

/-- Model of re.search of a bracketed span over the response: the
match starts at the leftmost open bracket that is followed by a close
bracket on the same line (the dot of the pattern does not cross a
newline) and extends greedily to the last close bracket on that line. -/
def bracketSpan (cs : List Char) : Option (List Char) :=
  match cs with
  | [] => none
  | c :: rest =>
    if c == '[' then
      match lastIdxOf ']' (rest.takeWhile (· ≠ '\n')) with
      | some j => some ('[' :: (rest.takeWhile (· ≠ '\n')).take (j + 1))
      | none => bracketSpan rest
    else bracketSpan rest

/-- A decoded JSON array element: a string, or any non-string JSON value
(number, boolean, null) which the tag comprehension discards. -/
inductive JVal where
  | str (s : String)
  | other
deriving DecidableEq

/-- Is this decoded element a Python str? -/
def JVal.isStr : JVal → Bool
  | JVal.str _ => true
  | JVal.other => false

/-- Drop JSON insignificant whitespace. -/
def skipWs (cs : List Char) : List Char :=
  cs.dropWhile isPySpace

/-- Parse the remainder of a JSON string literal (after the opening quote),
returning the content and the rest of the input. Escapes do not occur in the
data the claims use, so a backslash is a parse failure. -/
def parseJString (cs : List Char) : Option (List Char × List Char) :=
  match cs with
  | [] => none
  | c :: rest =>
    if c == '"' then some ([], rest)
    else if c == '\\' then none
    else (parseJString rest).map (fun p => (c :: p.1, p.2))

/-- One JSON array element: a string literal or a scalar literal
(number, true, false, null), which decodes to a non-string value. -/
def parseJElem (cs : List Char) : Option (JVal × List Char) :=
  match cs with
  | '"' :: rest => (parseJString rest).map (fun p => (JVal.str (String.mk p.1), p.2))
  | _ =>
    let tok := cs.takeWhile (fun c => c.isAlphanum || c == '-' || c == '+' || c == '.')
    if tok.isEmpty then none else some (JVal.other, cs.drop tok.length)

/-- Comma-separated element list of a JSON array, consuming the closing
bracket; fuelled recursion (the fuel is an upper bound on element count). -/
def parseJElems (fuel : Nat) (cs : List Char) : Option (List JVal × List Char) :=
  match fuel with
  | 0 => none
  | fuel + 1 =>
    match parseJElem (skipWs cs) with
    | none => none
    | some (v, rest) =>
      match skipWs rest with
      | ',' :: rest2 => (parseJElems fuel rest2).map (fun p => (v :: p.1, p.2))
      | ']' :: rest2 => some ([v], rest2)
      | _ => none

/-- Model of the standard-library json.loads restricted to the flat JSON
arrays this code path feeds it (the regex match always starts with an open
bracket, so a successful decode is always a Python list); anything outside
this fragment is a decode failure, which the caller turns into []. -/
def jsonLoadsList (s : String) : Option (List JVal) :=
  match skipWs s.toList with
  | '[' :: rest =>
    match skipWs rest with
    | ']' :: rest2 => if (skipWs rest2).isEmpty then some [] else none
    | cs =>
      match parseJElems (cs.length + 1) cs with
      | some (vs, rem) => if (skipWs rem).isEmpty then some vs else none
      | none => none
  | _ => none

/-- The list comprehension of generate_tag_suggestions: keep the string
elements of the decoded array, lowercase then strip each. -/
def tagsFromJson (vs : List JVal) : List String :=
  vs.filterMap (fun v =>
    match v with
    | JVal.str s => some (pyStrip (pyLowerStr s))
    | JVal.other => none)

/-- server.py generate_tag_suggestions: send the prompt; on any exception
(provider failure, decode failure) return []; otherwise search the response
for a bracketed span, decode it as JSON and run the comprehension; if the
regex finds no span, return []. -/
def generate_tag_suggestions (llm : String → Except String String) (content : String) :
    List String :=
  match llm (tagsPrompt content) with
  | Except.error _ => []
  | Except.ok response =>
    match bracketSpan response.toList with
    | none => []
    | some span =>
      match jsonLoadsList (String.mk span) with
      | none => []
      | some vs => tagsFromJson vs

/-! ### ResponseParser (modelled from the spec)

The label-grammar ResponseParser of the design document is not part of the
backend sources available here (server.py only contains the JSON tag path);
the definitions below are modelled from the specification text. -/

/-- Modelled from the spec: single-record field capture. Search the raw text
for the field label; capture everything after it up to the first occurrence
of any recognised label of the grammar (or end-of-text) and trim whitespace.
Absent label means absent field. The missing ResponseParser component is
being modelled. -/
def captureSpan (labels : List String) (label : String) (raw : String) : Option String :=
  match idxOfSub raw.toList label.toList with
  | none => none
  | some i =>
    let after := raw.toList.drop (i + label.toList.length)
    let stop := labels.foldr
      (fun l acc =>
        match idxOfSub after l.toList with
        | some j => min j acc
        | none => acc) after.length
    some (String.mk (pyStripList (after.take stop)))

/-- Characters stripped from keyword ends after trimming: surrounding brackets. -/
def isBracketChar (c : Char) : Bool :=
  c == '[' || c == ']'

/-- Strip surrounding bracket characters from both ends of a keyword piece. -/
def stripBrackets (s : String) : String :=
  String.mk (((s.toList.dropWhile isBracketChar).reverse.dropWhile isBracketChar).reverse)

/-- Split a character list on every occurrence of a separator character
(Python-style str.split with a one-character separator). -/
def splitOnChar (sep : Char) : List Char → List (List Char)
  | [] => [[]]
  | c :: rest =>
    if c == sep then [] :: splitOnChar sep rest
    else
      match splitOnChar sep rest with
      | [] => [[c]]
      | h :: t => (c :: h) :: t

/-- Modelled from the spec: the KEYWORDS span is split on commas, each piece
trimmed and stripped of surrounding brackets, filtered to entries of length
greater than one, and truncated to the first eight. -/
def parseKeywords (span : String) : List String :=
  ((((splitOnChar ',' span.toList).map
      (fun p => stripBrackets (pyStrip (String.mk p)))).filter
    (fun s => 1 < s.length)).take 8)

/-- The ExtractedSummary record of the spec data model. -/
structure ExtractedSummary where
  summary : String
  keywords : List String
deriving DecidableEq

/-- The labels of the Summary grammar. -/
def summaryLabels : List String := ["SUMMARY:", "KEYWORDS:"]

/-- Modelled from the spec: single-record extraction for the Summary kind.
The summary field is the captured SUMMARY: span (empty when absent); the
keywords are parsed from the KEYWORDS: span and empty when the label is
absent. -/
def parseSummaryRecord (raw : String) : ExtractedSummary :=
  { summary := (captureSpan summaryLabels "SUMMARY:" raw).getD ""
    keywords :=
      match captureSpan summaryLabels "KEYWORDS:" raw with
      | some span => parseKeywords span
      | none => [] }

/-- The ExtractedEvent record of the spec data model. -/
structure ExtractedEvent where
  title : String
  date : String
  time : String
  description : String
deriving DecidableEq

/-- The labels of the ScheduleEvent grammar. -/
def eventLabels : List String := ["TITLE:", "DATE:", "TIME:", "DESCRIPTION:"]

/-- Modelled from the spec: single-record extraction for the ScheduleEvent
kind with the default-on-missing policy. `today` is the current date already
rendered in YYYY-MM-DD form (the clock is an input of the embedding). -/
def parseScheduleEvent (today : String) (raw : String) : ExtractedEvent :=
  { title := (captureSpan eventLabels "TITLE:" raw).getD "Scheduled Event"
    date := (captureSpan eventLabels "DATE:" raw).getD today
    time := (captureSpan eventLabels "TIME:" raw).getD "09:00"
    description := (captureSpan eventLabels "DESCRIPTION:" raw).getD "" }

/-- The ExtractedTask record of the spec data model. -/
structure ExtractedTask where
  title : String
  description : String
  deadline : Option String
  priority : String
deriving DecidableEq

/-- The labels of the TaskBatch per-block grammar. -/
def taskLabels : List String := ["TITLE:", "DESCRIPTION:", "DEADLINE:", "PRIORITY:"]

/-- Modelled from the spec: parse one TaskBatch segment. A segment without a
TITLE: label yields no record (the block-validity gate); a DEADLINE span
case-insensitively equal to none resolves to an absent deadline; the
priority defaults to medium when absent or unrecognised. -/
def parseTaskSegment (seg : String) : Option ExtractedTask :=
  match captureSpan taskLabels "TITLE:" seg with
  | none => none
  | some t =>
    some
      { title := t
        description := (captureSpan taskLabels "DESCRIPTION:" seg).getD ""
        deadline :=
          match captureSpan taskLabels "DEADLINE:" seg with
          | none => none
          | some d => if pyLowerStr d == "none" then none else some d
        priority :=
          match captureSpan taskLabels "PRIORITY:" seg with
          | none => "medium"
          | some p =>
            if p == "high" || p == "medium" || p == "low" then p else "medium" }

/-- Split a character list on every occurrence of the literal marker TASK
(Python-style substring split). -/
def splitOnTASK : List Char → List (List Char)
  | [] => [[]]
  | 'T' :: 'A' :: 'S' :: 'K' :: rest => [] :: splitOnTASK rest
  | c :: rest =>
    match splitOnTASK rest with
    | [] => [[c]]
    | h :: t => (c :: h) :: t

/-- Modelled from the spec: segment the raw text into blocks by splitting on
the literal marker TASK and discarding the zeroth segment (the preamble
before the first marker). -/
def segmentsOf (raw : String) : List String :=
  ((splitOnTASK raw.toList).map String.mk).drop 1

/-- Parse a list of segments, silently dropping the invalid ones. -/
def tasksOfSegments (segs : List String) : List ExtractedTask :=
  segs.filterMap parseTaskSegment

/-- Modelled from the spec: multi-record extraction for the TaskBatch kind. -/
def parseTaskBatch (raw : String) : List ExtractedTask :=
  tasksOfSegments (segmentsOf raw)

/-! ### MongoDB (de)serialisation helpers of server.py -/

/-- A UTC datetime value as the code uses it (timezone.utc aware). -/
structure Dt where
  year : Nat
  month : Nat
  day : Nat
  hour : Nat
  minute : Nat
  second : Nat
deriving DecidableEq

/-- Zero-padded two-digit rendering. -/
def pad2 (n : Nat) : String :=
  if n < 10 then "0" ++ toString n else toString n

/-- Zero-padded four-digit rendering. -/
def pad4 (n : Nat) : String :=
  if n < 10 then "000" ++ toString n
  else if n < 100 then "00" ++ toString n
  else if n < 1000 then "0" ++ toString n
  else toString n

/-- datetime.isoformat() for an aware UTC value. -/
def isoformat (d : Dt) : String :=
  pad4 d.year ++ "-" ++ pad2 d.month ++ "-" ++ pad2 d.day ++ "T" ++
    pad2 d.hour ++ ":" ++ pad2 d.minute ++ ":" ++ pad2 d.second ++ "+00:00"

/-- Decimal digits to a number, failing on empty or non-digit input
(int parsing as fromisoformat needs it). -/
def digitsToNat (cs : List Char) : Option Nat :=
  if cs.isEmpty then none
  else if cs.all Char.isDigit then
    some (cs.foldl (fun a c => a * 10 + (c.toNat - 48)) 0)
  else none

/-- datetime.fromisoformat on the shapes this code round-trips (a date, a
T separator, a time, a UTC offset); a string outside that shape raises,
modelled as none. -/
def fromisoformat (s : String) : Option Dt :=
  match splitOnChar 'T' s.toList with
  | [d, t] =>
    match splitOnChar '-' d with
    | [y, mo, da] =>
      match splitOnChar '+' t with
      | [hms, off] =>
        if off = [ '0', '0', ':', '0', '0' ] then
          match splitOnChar ':' hms with
          | [h, mi, se] =>
            match digitsToNat y, digitsToNat mo, digitsToNat da,
                digitsToNat h, digitsToNat mi, digitsToNat se with
            | some y, some mo, some da, some h, some mi, some se =>
              some (Dt.mk y mo da h mi se)
            | _, _, _, _, _, _ => none
          | _ => none
        else none
      | _ => none
    | _ => none
  | _ => none

/-- A MongoDB field value as seen by the two helpers: a plain string, a
datetime, or anything else (lists, booleans, numbers, ...). -/
inductive MVal where
  | str (s : String)
  | dt (d : Dt)
  | other
deriving DecidableEq

/-- A stored document, with the two fields the helpers special-case made
explicit and every other field kept in an association list they never
touch. -/
structure MongoDoc where
  created_at : MVal
  updated_at : MVal
  rest : List (String × MVal)
deriving DecidableEq

/-- server.py prepare_for_mongo: if created_at (resp. updated_at) is a
datetime instance, replace it with its isoformat string; every other value
is passed through unchanged. -/
def prepare_for_mongo (data : MongoDoc) : MongoDoc :=
  { data with
    created_at :=
      match data.created_at with
      | MVal.dt d => MVal.str (isoformat d)
      | v => v
    updated_at :=
      match data.updated_at with
      | MVal.dt d => MVal.str (isoformat d)
      | v => v }

/-- Convert one field value as parse_from_mongo does: a string is parsed by
datetime.fromisoformat (raising on a non-ISO string); anything else is left
alone. -/
def mongoReadField (v : MVal) : Except String MVal :=
  match v with
  | MVal.str s =>
    match fromisoformat s with
    | some d => Except.ok (MVal.dt d)
    | none => Except.error "ValueError"
  | v => Except.ok v

/-- server.py parse_from_mongo: if created_at (resp. updated_at) is a
string, convert it back to a datetime with fromisoformat; every other field
is passed through unchanged. -/
def parse_from_mongo (item : MongoDoc) : Except String MongoDoc :=
  match mongoReadField item.created_at, mongoReadField item.updated_at with
  | Except.ok c, Except.ok u => Except.ok { item with created_at := c, updated_at := u }
  | Except.error e, _ => Except.error e
  | _, Except.error e => Except.error e

/-! ### The Note model and the notes routes of server.py

The notes collection is modelled at the typed level (a list of Note values);
the isoformat round-trip applied on the way in and out by the helpers above
is orthogonal to these routes. HTTP failures are modelled as
Except with the status code. -/

/-- The Note pydantic model. -/
structure Note where
  id : String
  user_id : String
  title : String
  content : String
  summary : Option String
  tags : List String
  is_favorite : Bool
  created_at : Dt
  updated_at : Dt
deriving DecidableEq

/-- The NoteCreate request body. -/
structure NoteCreate where
  title : String
  content : String
  tags : Option (List String)
deriving DecidableEq

/-- The NoteUpdate request body: every field optional, None meaning
"not provided". -/
structure NoteUpdate where
  title : Option String
  content : Option String
  tags : Option (List String)
  is_favorite : Option Bool
deriving DecidableEq

/-- The AIRequest body. -/
structure AIRequest where
  action : String
  note_id : String
deriving DecidableEq

/-- The AIResponse body. -/
structure AIResponse where
  result : String
  action : String
deriving DecidableEq

/-- server.py create_note: generate an AI summary only when the content is
longer than 100 characters (otherwise the summary stays None), then build
the note for the current user. `nid` and `now` stand for the generated
uuid and the two creation timestamps. -/
def create_note (llm : String → Except String String) (current_user_id : String)
    (note_data : NoteCreate) (nid : String) (now : Dt) : Note :=
  let summary : Option String :=
    if 100 < note_data.content.length then
      some (generate_ai_summary llm note_data.content)
    else none
  { id := nid
    user_id := current_user_id
    title := note_data.title
    content := note_data.content
    summary := summary
    tags := note_data.tags.getD []
    is_favorite := false
    created_at := now
    updated_at := now }

/-- Does this stored note match the filter of the note routes: its id equals
the path id and its user_id equals the current user's id? -/
def matchesFilter (nid uid : String) (n : Note) : Bool :=
  n.id == nid && n.user_id == uid

/-- db.notes.find_one with the two-field filter used by every note route:
the first stored note whose id and user_id both match. -/
def find_one (db : List Note) (nid uid : String) : Option Note :=
  db.find? (matchesFilter nid uid)

/-- server.py get_note: find the note scoped to the current user; 404 when
the filter matches nothing. -/
def get_note (db : List Note) (note_id current_user_id : String) : Except Nat Note :=
  match find_one db note_id current_user_id with
  | none => Except.error 404
  | some n => Except.ok n

/-- db.notes.update_one with the scoped filter: apply the update to the
first matching document, leave everything else in place. -/
def update_one (db : List Note) (nid uid : String) (f : Note → Note) : List Note :=
  match db with
  | [] => []
  | n :: rest =>
    if matchesFilter nid uid n then f n :: rest
    else n :: update_one rest nid uid f

/-- The $set document built by update_note applied to a stored note: the
non-None fields of the body overwrite the stored fields, updated_at is
always refreshed, and a provided content that is non-empty and longer than
100 characters regenerates the summary. -/
def applyUpdate (now : Dt) (llm : String → Except String String)
    (note_update : NoteUpdate) (n : Note) : Note :=
  let base :=
    { n with
      title := note_update.title.getD n.title
      content := note_update.content.getD n.content
      tags := note_update.tags.getD n.tags
      is_favorite := note_update.is_favorite.getD n.is_favorite
      updated_at := now }
  match note_update.content with
  | some c =>
    if c ≠ "" ∧ 100 < c.length then
      { base with summary := some (generate_ai_summary llm c) }
    else base
  | none => base

/-- server.py update_note: find the note scoped to the current user (404
when absent), apply the $set update through the same scoped filter, re-read
the note and return it together with the new collection state. The re-read
cannot miss because the update never changes id or user_id; the unreachable
branch is modelled as a 500. -/
def update_note (db : List Note) (note_id : String) (note_update : NoteUpdate)
    (current_user_id : String) (now : Dt) (llm : String → Except String String) :
    Except Nat Note × List Note :=
  match find_one db note_id current_user_id with
  | none => (Except.error 404, db)
  | some _ =>
    let db2 := update_one db note_id current_user_id (applyUpdate now llm note_update)
    match find_one db2 note_id current_user_id with
    | none => (Except.error 500, db2)
    | some n => (Except.ok n, db2)

/-- db.notes.delete_one with the scoped filter: remove the first matching
document, returning the new state and the deleted_count. -/
def delete_one (db : List Note) (nid uid : String) : List Note × Nat :=
  match db with
  | [] => ([], 0)
  | n :: rest =>
    if matchesFilter nid uid n then (rest, 1)
    else
      let p := delete_one rest nid uid
      (n :: p.1, p.2)

/-- server.py delete_note: delete through the scoped filter, then 404 when
the deleted_count is zero; returns the outcome and the new collection
state. -/
def delete_note (db : List Note) (note_id current_user_id : String) :
    Except Nat String × List Note :=
  let p := delete_one db note_id current_user_id
  if p.2 == 0 then (Except.error 404, p.1)
  else (Except.ok "Note deleted successfully", p.1)

/-- json.dumps on a list of tags (no escaping is needed for the data the
claims use). -/
def jsonDumps (tags : List String) : String :=
  "[" ++ String.intercalate ", " (tags.map (fun t => "\"" ++ t ++ "\"")) ++ "]"

/-- server.py process_ai_request: load the note scoped to the current user
(404 when absent), then dispatch on the action; an unknown action is a
400. -/
def process_ai_request (db : List Note) (request : AIRequest)
    (current_user_id : String) (llm : String → Except String String) :
    Except Nat AIResponse :=
  match find_one db request.note_id current_user_id with
  | none => Except.error 404
  | some note =>
    if request.action == "summarize" then
      Except.ok (AIResponse.mk (generate_ai_summary llm note.content) request.action)
    else if request.action == "suggest_tags" then
      Except.ok (AIResponse.mk (jsonDumps (generate_tag_suggestions llm note.content)) request.action)
    else if request.action == "insights" then
      Except.ok (AIResponse.mk (generate_insights llm note.content) request.action)
    else Except.error 400

/-! ## Theorems for the claims -/

/-- C1 counterexample: when the outbound LLM call fails, none of the three
extraction operations propagates an error; each returns a default or
placeholder result (a placeholder summary string, an empty tag list, a
placeholder insight string). This refutes the claim that an
AIProcessingFailed error reaches the caller and no record is returned. -/
theorem provider_failure_counterexample :
    generate_ai_summary (fun _ => Except.error "timeout") "note text" =
      "Summary generation failed" ∧
    generate_tag_suggestions (fun _ => Except.error "timeout") "note text" = [] ∧
    generate_insights (fun _ => Except.error "timeout") "note text" =
      "Insight generation failed" :=
  ⟨rfl, rfl, rfl⟩

/-- C1 (amended): whenever the outbound LLM call fails, generate_ai_summary
returns the placeholder string "Summary generation failed",
generate_tag_suggestions returns the empty list, and generate_insights
returns "Insight generation failed"; the failure is swallowed, not
propagated. -/
theorem provider_failure_returns_placeholders
    (llm : String → Except String String) (content e : String) :
    (llm (summaryPrompt content) = Except.error e →
      generate_ai_summary llm content = "Summary generation failed") ∧
    (llm (tagsPrompt content) = Except.error e →
      generate_tag_suggestions llm content = []) ∧
    (llm (insightsPrompt content) = Except.error e →
      generate_insights llm content = "Insight generation failed") := by
  refine ⟨fun h => ?_, fun h => ?_, fun h => ?_⟩ <;>
    simp [generate_ai_summary, generate_tag_suggestions, generate_insights, h]

/-- Witness for the amended C1 theorem at a concretely failing provider. -/
theorem provider_failure_returns_placeholders_witness :
    generate_ai_summary (fun _ => Except.error "quota") "hello" =
      "Summary generation failed" ∧
    generate_tag_suggestions (fun _ => Except.error "quota") "hello" = [] :=
  ⟨(provider_failure_returns_placeholders (fun _ => Except.error "quota") "hello" "quota").1 rfl,
   (provider_failure_returns_placeholders (fun _ => Except.error "quota") "hello" "quota").2.1 rfl⟩

/-- C2 counterexample: a response decoding to nine one-character tags makes
generate_tag_suggestions return nine entries, each of length one: the output
is neither truncated to eight entries nor filtered to entries of length
greater than one. -/
theorem tag_bounds_counterexample :
    ¬ ((generate_tag_suggestions
          (fun _ => Except.ok "[\"a\", \"b\", \"c\", \"d\", \"e\", \"f\", \"g\", \"h\", \"i\"]")
          "note").length ≤ 8 ∧
       ∀ s ∈ generate_tag_suggestions
          (fun _ => Except.ok "[\"a\", \"b\", \"c\", \"d\", \"e\", \"f\", \"g\", \"h\", \"i\"]")
          "note", 1 < s.length) := by
  decide

/-- The comprehension keeps exactly the string elements of the decoded
array. -/
theorem tagsFromJson_length (vs : List JVal) :
    (tagsFromJson vs).length = vs.countP JVal.isStr := by
  induction vs with
  | nil => rfl
  | cons v t ih =>
    cases v with
    | str s =>
      simp [tagsFromJson, List.countP_cons, JVal.isStr] at ih ⊢
      omega
    | other =>
      simp [tagsFromJson, List.countP_cons, JVal.isStr] at ih ⊢
      omega

/-- C2 (amended): for any successful response whose bracketed span decodes,
the tag extraction returns exactly one entry per string element of the
decoded JSON array (lowercased then stripped, non-strings dropped), with no
cap of eight entries and no minimum-length filter. -/
theorem tag_extraction_unbounded (llm : String → Except String String)
    (content resp : String) (span : List Char) (vs : List JVal)
    (hr : llm (tagsPrompt content) = Except.ok resp)
    (hspan : bracketSpan resp.toList = some span)
    (hjson : jsonLoadsList (String.mk span) = some vs) :
    (generate_tag_suggestions llm content).length = vs.countP JVal.isStr ∧
    ∀ s : String, JVal.str s ∈ vs →
      pyStrip (pyLowerStr s) ∈ generate_tag_suggestions llm content := by
  have hspan2 : bracketSpan resp.data = some span := hspan
  have hout : generate_tag_suggestions llm content = tagsFromJson vs := by
    simp [generate_tag_suggestions, hr, hspan2, hjson]
  rw [hout]
  exact ⟨tagsFromJson_length vs, fun s hs => List.mem_filterMap.mpr ⟨JVal.str s, hs, rfl⟩⟩

/-- Witness for the amended C2 theorem at a concrete response. -/
theorem tag_extraction_unbounded_witness :
    (generate_tag_suggestions (fun _ => Except.ok "[\"Ab\"]") "n").length =
      List.countP JVal.isStr [JVal.str "Ab"] :=
  (tag_extraction_unbounded (fun _ => Except.ok "[\"Ab\"]") "n" "[\"Ab\"]"
    ("[\"Ab\"]".toList) [JVal.str "Ab"] rfl (by decide) (by decide)).1

/-- C3: on the raw text SUMMARY: A note about trees. / KEYWORDS: [forest,
ecology, biology], the summary extraction captures the labeled spans,
comma-splits the keyword span, trims each piece and strips its surrounding
brackets. -/
theorem summary_scenario_extraction :
    parseSummaryRecord "SUMMARY: A note about trees.\nKEYWORDS: [forest, ecology, biology]" =
      ExtractedSummary.mk "A note about trees." ["forest", "ecology", "biology"] := by
  decide

/-- A label that does not occur as a substring has no first occurrence. -/
theorem containsSub_eq_false (s label : String) (h : containsSub s label = false) :
    idxOfSub s.toList label.toList = none := by
  unfold containsSub at h
  cases hidx : idxOfSub s.toList label.toList with
  | none => rfl
  | some i => rw [hidx] at h; simp at h

/-- Field capture on a text that does not contain the label is absent. -/
theorem captureSpan_absent (labels : List String) (label raw : String)
    (h : containsSub raw label = false) : captureSpan labels label raw = none := by
  unfold captureSpan
  rw [containsSub_eq_false raw label h]

/-- C4: default-on-missing for the ScheduleEvent grammar: when the DATE:
label is absent from the raw text the date field is the current date (the
today parameter, rendered YYYY-MM-DD by the caller), when TIME: is absent
the time field is 09:00, and when TITLE: is absent the title field is
Scheduled Event. -/
theorem schedule_event_defaults (today raw : String) :
    (containsSub raw "DATE:" = false → (parseScheduleEvent today raw).date = today) ∧
    (containsSub raw "TIME:" = false → (parseScheduleEvent today raw).time = "09:00") ∧
    (containsSub raw "TITLE:" = false →
      (parseScheduleEvent today raw).title = "Scheduled Event") := by
  refine ⟨fun h => ?_, fun h => ?_, fun h => ?_⟩ <;>
    rw [parseScheduleEvent, captureSpan_absent eventLabels _ raw h] <;> rfl

/-- Witness for the C4 theorem on a raw text carrying none of the labels. -/
theorem schedule_event_defaults_witness :
    (parseScheduleEvent "2026-10-12" "hello there").date = "2026-10-12" ∧
    (parseScheduleEvent "2026-10-12" "hello there").time = "09:00" ∧
    (parseScheduleEvent "2026-10-12" "hello there").title = "Scheduled Event" :=
  ⟨(schedule_event_defaults "2026-10-12" "hello there").1 (by decide),
   (schedule_event_defaults "2026-10-12" "hello there").2.1 (by decide),
   (schedule_event_defaults "2026-10-12" "hello there").2.2 (by decide)⟩

/-- C5: the TaskBatch block-validity gate. A segment without a TITLE: label
contributes no record wherever it sits in the segment sequence, and the
concrete batch with three valid blocks and one invalid block yields exactly
the three records of the valid blocks in their original order. -/
theorem task_batch_title_gate :
    (∀ (pre post : List String) (s : String), containsSub s "TITLE:" = false →
      tasksOfSegments (pre ++ s :: post) = tasksOfSegments (pre ++ post)) ∧
    parseTaskBatch
        "TASK1\nTITLE: A\nPRIORITY: high\nTASK2\nTITLE: B\nTASK3\nDESCRIPTION: no heading here\nTASK4\nTITLE: C\n" =
      [ExtractedTask.mk "A" "" none "high", ExtractedTask.mk "B" "" none "medium",
       ExtractedTask.mk "C" "" none "medium"] := by
  constructor
  · intro pre post s h
    have hseg : parseTaskSegment s = none := by
      unfold parseTaskSegment
      rw [captureSpan_absent taskLabels _ s h]
    simp [tasksOfSegments, List.filterMap_append, hseg]
  · decide

/-- Witness for the C5 theorem: a concrete invalid segment between two valid
ones drops out of the batch. -/
theorem task_batch_title_gate_witness :
    tasksOfSegments ["1\nTITLE: A\n", "2\nno heading", "3\nTITLE: B\n"] =
      tasksOfSegments ["1\nTITLE: A\n", "3\nTITLE: B\n"] :=
  task_batch_title_gate.1 ["1\nTITLE: A\n"] ["3\nTITLE: B\n"] "2\nno heading" (by decide)

/-- C6: the parsing/extraction step of every grammar is a pure function of
the raw text it is given: applying it twice to the same text yields
identical records. The Python parsers read no mutable state, so they embed
as functions of the text alone and the two applications agree. -/
theorem parsing_idempotent (today raw content : String)
    (llm : String → Except String String) :
    parseSummaryRecord raw = parseSummaryRecord raw ∧
    parseScheduleEvent today raw = parseScheduleEvent today raw ∧
    parseTaskBatch raw = parseTaskBatch raw ∧
    generate_tag_suggestions llm content = generate_tag_suggestions llm content :=
  ⟨rfl, rfl, rfl, rfl⟩

/-- C7 counterexample: a record whose created_at/updated_at hold a plain
(well-formed) string is not returned unchanged by store-then-read:
parse_from_mongo converts the stored string into a datetime value, so the
date/time fields are not plain strings after a read. -/
theorem mongo_roundtrip_counterexample :
    parse_from_mongo (prepare_for_mongo (MongoDoc.mk (MVal.str "2025-01-01T00:00:00+00:00")
        (MVal.str "2025-01-01T00:00:00+00:00") [("date", MVal.str "tomorrow")])) =
      Except.ok (MongoDoc.mk (MVal.dt (Dt.mk 2025 1 1 0 0 0)) (MVal.dt (Dt.mk 2025 1 1 0 0 0))
        [("date", MVal.str "tomorrow")]) ∧
    MVal.dt (Dt.mk 2025 1 1 0 0 0) ≠ MVal.str "2025-01-01T00:00:00+00:00" :=
  ⟨rfl, by decide⟩

/-- Reading a document back never touches the fields other than created_at
and updated_at. -/
theorem parse_from_mongo_rest (doc r : MongoDoc)
    (h : parse_from_mongo doc = Except.ok r) : r.rest = doc.rest := by
  unfold parse_from_mongo at h
  cases hc : mongoReadField doc.created_at <;> rw [hc] at h
  · cases hu : mongoReadField doc.updated_at <;> rw [hu] at h <;> cases h
  · cases hu : mongoReadField doc.updated_at <;> rw [hu] at h
    · cases h
    · cases h
      rfl

/-- C7 (amended): storing keeps every string-valued field a plain unchanged
string and never touches fields other than created_at/updated_at, and
store-then-read returns every field other than created_at/updated_at
unchanged; created_at/updated_at themselves are converted (datetime to ISO
string on store, string to datetime on read), so they do not round-trip as
strings. -/
theorem mongo_roundtrip_frame (doc : MongoDoc) :
    (prepare_for_mongo doc).rest = doc.rest ∧
    (∀ s, doc.created_at = MVal.str s → (prepare_for_mongo doc).created_at = MVal.str s) ∧
    (∀ s, doc.updated_at = MVal.str s → (prepare_for_mongo doc).updated_at = MVal.str s) ∧
    (∀ r, parse_from_mongo (prepare_for_mongo doc) = Except.ok r → r.rest = doc.rest) := by
  refine ⟨rfl, fun s h => ?_, fun s h => ?_, fun r h => ?_⟩
  · simp [prepare_for_mongo, h]
  · simp [prepare_for_mongo, h]
  · exact (parse_from_mongo_rest (prepare_for_mongo doc) r h).trans rfl

/-- Witness for the amended C7 theorem on a concrete document. -/
theorem mongo_roundtrip_frame_witness :
    (prepare_for_mongo (MongoDoc.mk (MVal.str "June 3rd") MVal.other
        [("time", MVal.str "late")])).created_at = MVal.str "June 3rd" :=
  (mongo_roundtrip_frame (MongoDoc.mk (MVal.str "June 3rd") MVal.other
    [("time", MVal.str "late")])).2.1 "June 3rd" rfl

/-- No stored note matches the scoped filter when every note carrying the
requested id belongs to someone else. -/
theorem find_one_eq_none (db : List Note) (nid uid : String)
    (h : ∀ n ∈ db, n.id = nid → n.user_id ≠ uid) : find_one db nid uid = none := by
  apply List.find?_eq_none.mpr
  intro n hn
  simp only [matchesFilter, Bool.and_eq_true, beq_iff_eq]
  rintro ⟨h1, h2⟩
  exact h n hn h1 h2

/-- Deleting through a filter nothing matches leaves the collection as it
was, with a deleted_count of zero. -/
theorem delete_one_no_match (db : List Note) (nid uid : String)
    (h : ∀ n ∈ db, matchesFilter nid uid n = false) : delete_one db nid uid = (db, 0) := by
  induction db with
  | nil => rfl
  | cons n rest ih =>
    have hn := h n (by simp)
    have hrest := ih (fun m hm => h m (by simp [hm]))
    simp [delete_one, hn, hrest]

/-- C8: every note route queries with the compound filter id + user_id, so
a request for a note id that only exists under a different owner is a 404
for read, update, delete and AI-process alike, and neither the update nor
the delete changes the stored collection. -/
theorem user_scoping_not_found (db : List Note) (uid nid : String) (u : NoteUpdate)
    (now : Dt) (llm : String → Except String String) (req : AIRequest)
    (h : ∀ n ∈ db, n.id = nid → n.user_id ≠ uid) :
    get_note db nid uid = Except.error 404 ∧
    update_note db nid u uid now llm = (Except.error 404, db) ∧
    delete_note db nid uid = (Except.error 404, db) ∧
    (req.note_id = nid → process_ai_request db req uid llm = Except.error 404) := by
  have hfind : find_one db nid uid = none := find_one_eq_none db nid uid h
  have hmf : ∀ n ∈ db, matchesFilter nid uid n = false := by
    intro n hn
    simp only [matchesFilter, Bool.and_eq_true, beq_iff_eq, Bool.not_eq_true] at *
    by_cases h1 : n.id = nid
    · simp [h1, h n hn h1]
    · simp [h1]
  refine ⟨?_, ?_, ?_, fun hreq => ?_⟩
  · simp [get_note, hfind]
  · simp [update_note, hfind]
  · simp [delete_note, delete_one_no_match db nid uid hmf]
  · rw [process_ai_request, hreq, hfind]

/-- Witness for the C8 theorem: a note owned by alice is invisible to bob. -/
theorem user_scoping_not_found_witness :
    get_note [Note.mk "n1" "alice" "t" "c" none [] false (Dt.mk 2026 1 1 0 0 0)
        (Dt.mk 2026 1 1 0 0 0)] "n1" "bob" = Except.error 404 :=
  (user_scoping_not_found [Note.mk "n1" "alice" "t" "c" none [] false (Dt.mk 2026 1 1 0 0 0)
      (Dt.mk 2026 1 1 0 0 0)] "bob" "n1" (NoteUpdate.mk none none none none)
    (Dt.mk 2026 1 2 0 0 0) (fun _ => Except.error "x") (AIRequest.mk "summarize" "n1")
    (by decide)).1

/-- C9: note creation generates an AI summary exactly when the content is
strictly longer than 100 characters; a note created from content of length
at most 100 carries summary None, and a longer content carries the summary
the AI helper produced. -/
theorem summary_generation_threshold (llm : String → Except String String)
    (uid : String) (nd : NoteCreate) (nid : String) (now : Dt) :
    ((create_note llm uid nd nid now).summary.isSome ↔ 100 < nd.content.length) ∧
    (nd.content.length ≤ 100 → (create_note llm uid nd nid now).summary = none) ∧
    (100 < nd.content.length →
      (create_note llm uid nd nid now).summary =
        some (generate_ai_summary llm nd.content)) := by
  unfold create_note
  by_cases hc : 100 < nd.content.length <;> simp [hc]

/-- Witness for the C9 theorem on a short note body. -/
theorem summary_generation_threshold_witness :
    (create_note (fun _ => Except.error "x") "u1" (NoteCreate.mk "t" "short note" none)
        "id1" (Dt.mk 2026 1 1 0 0 0)).summary = none :=
  (summary_generation_threshold (fun _ => Except.error "x") "u1"
    (NoteCreate.mk "t" "short note" none) "id1" (Dt.mk 2026 1 1 0 0 0)).2.1 (by decide)

/-- The update document written by update_note, in explicit form: provided
fields overwrite, updated_at is refreshed, and the summary changes exactly
when a non-empty content longer than 100 characters is provided. -/
theorem applyUpdate_eq (now : Dt) (llm : String → Except String String)
    (u : NoteUpdate) (n : Note) :
    applyUpdate now llm u n =
      { n with
        title := u.title.getD n.title
        content := u.content.getD n.content
        tags := u.tags.getD n.tags
        is_favorite := u.is_favorite.getD n.is_favorite
        updated_at := now
        summary :=
          match u.content with
          | some c =>
            if c ≠ "" ∧ 100 < c.length then some (generate_ai_summary llm c)
            else n.summary
          | none => n.summary } := by
  unfold applyUpdate
  cases u.content with
  | none => rfl
  | some c => by_cases hlen : c ≠ "" ∧ 100 < c.length <;> simp [hlen]

/-- C10: the update applied to the stored note (the $set document of
update_note, which update_one writes and the route returns) is a frame:
identity, owner and creation time are untouched; every field whose update
value is None keeps its prior value; updated_at is always refreshed; the
summary is regenerated exactly when the provided content is longer than 100
characters and otherwise keeps its prior value. -/
theorem update_note_frame (now : Dt) (llm : String → Except String String)
    (u : NoteUpdate) (n : Note) :
    (applyUpdate now llm u n).id = n.id ∧
    (applyUpdate now llm u n).user_id = n.user_id ∧
    (applyUpdate now llm u n).created_at = n.created_at ∧
    (applyUpdate now llm u n).updated_at = now ∧
    (u.title = none → (applyUpdate now llm u n).title = n.title) ∧
    (u.content = none → (applyUpdate now llm u n).content = n.content) ∧
    (u.tags = none → (applyUpdate now llm u n).tags = n.tags) ∧
    (u.is_favorite = none → (applyUpdate now llm u n).is_favorite = n.is_favorite) ∧
    ((∀ c, u.content = some c → c.length ≤ 100) →
      (applyUpdate now llm u n).summary = n.summary) ∧
    (∀ c, u.content = some c → 100 < c.length →
      (applyUpdate now llm u n).summary = some (generate_ai_summary llm c)) := by
  rw [applyUpdate_eq]
  refine ⟨rfl, rfl, rfl, rfl, fun h => by simp [h], fun h => by simp [h],
    fun h => by simp [h], fun h => by simp [h], fun hshort => ?_, fun c hcont hlen => ?_⟩
  · show (match u.content with
      | some c =>
        if c ≠ "" ∧ 100 < c.length then some (generate_ai_summary llm c) else n.summary
      | none => n.summary) = n.summary
    cases hcont : u.content with
    | none => rfl
    | some c =>
      have hle := hshort c hcont
      show (if c ≠ "" ∧ 100 < c.length then some (generate_ai_summary llm c)
        else n.summary) = n.summary
      rw [if_neg]
      rintro ⟨-, hgt⟩
      omega
  · show (match u.content with
      | some c =>
        if c ≠ "" ∧ 100 < c.length then some (generate_ai_summary llm c) else n.summary
      | none => n.summary) = some (generate_ai_summary llm c)
    rw [hcont]
    show (if c ≠ "" ∧ 100 < c.length then some (generate_ai_summary llm c)
      else n.summary) = some (generate_ai_summary llm c)
    rw [if_pos]
    refine ⟨fun he => ?_, hlen⟩
    subst he
    simp at hlen

/-- Witness for the C10 theorem: an update providing only the title leaves
the other stored fields in place. -/
theorem update_note_frame_witness :
    (applyUpdate (Dt.mk 2026 1 2 0 0 0) (fun _ => Except.error "x")
        (NoteUpdate.mk (some "T2") none none none)
        (Note.mk "n1" "u1" "T" "C" (some "S") ["a"] true (Dt.mk 2026 1 1 0 0 0)
          (Dt.mk 2026 1 1 0 0 0))).content = "C" :=
  (update_note_frame (Dt.mk 2026 1 2 0 0 0) (fun _ => Except.error "x")
    (NoteUpdate.mk (some "T2") none none none)
    (Note.mk "n1" "u1" "T" "C" (some "S") ["a"] true (Dt.mk 2026 1 1 0 0 0)
      (Dt.mk 2026 1 1 0 0 0))).2.2.2.2.2.1 rfl
